import Mathlib

/-!
Verification development for the "wish-wall" repository: the nested
comment subsystem (flat comment rows, tree assembly, comment creation)
and the frontend behaviours around it (request bodies, refresh-token
interceptor, comment indentation, wish icon selection).

The Flask backend (Comment Store, Tree Assembler, Comment Service,
Message Read Path) is not part of the checked-in sources; those
components are modelled from the specification, as marked on each
definition.  Frontend behaviour is embedded from the TypeScript sources
(`MessageCard.tsx`, `CommentSection.tsx`, `utils/api.ts`).
-/

/-- Author record: the spec collapses the dynamic author value to a
fixed `\x7b id, username, display_name? \x7d` shape. -/
structure Author where
  id : Nat
  username : String
  display_name : Option String
  deriving DecidableEq, Repr

/-- Flat comment row as stored by the Comment Store (spec §3): id,
owning message, optional parent comment, author, content, creation
timestamp (modelled as a logical clock). -/
structure CommentRow where
  id : Nat
  messageId : Nat
  parentId : Option Nat
  author : Author
  content : String
  createdAt : Nat
  deriving DecidableEq, Repr

mutual
/-- A node of the assembled comment tree: the comment row plus its
ordered list of replies (derived, not stored — spec §3). -/
inductive CommentNode : Type where
  | mk (row : CommentRow) (replies : CommentForest) : CommentNode
/-- An ordered forest of comment nodes. -/
inductive CommentForest : Type where
  | nil : CommentForest
  | cons (head : CommentNode) (tail : CommentForest) : CommentForest
end

/-- Forest concatenation (ordered). -/
def CommentForest.append : CommentForest → CommentForest → CommentForest
  | .nil, g => g
  | .cons a f, g => .cons a (f.append g)

mutual
/-- Modelled from the spec: step 2 of the Tree Assembler (§4.2), whose
implementation lives in the missing Flask backend.  Look up the parent
node by id inside one tree and append the new node at the end of its
children list; `none` if the parent id does not occur. -/
def attachNode (pid : Nat) (c : CommentNode) : CommentNode → Option CommentNode
  | .mk row ch =>
    if row.id = pid then
      some (.mk row (ch.append (.cons c .nil)))
    else
      match attachForest pid c ch with
      | some ch2 => some (.mk row ch2)
      | none => none
/-- Modelled from the spec: the forest-level parent lookup of the Tree
Assembler (§4.2), missing from the checked-in backend sources. -/
def attachForest (pid : Nat) (c : CommentNode) : CommentForest → Option CommentForest
  | .nil => none
  | .cons t ts =>
    match attachNode pid c t with
    | some t2 => some (.cons t2 ts)
    | none =>
      match attachForest pid c ts with
      | some ts2 => some (.cons t ts2)
      | none => none
end

/-- Modelled from the spec: one step of the Tree Assembler (§4.2 step 2),
missing from the checked-in backend sources.  A null-parent comment is
appended to the forest as a new root; otherwise the node is appended to
the children list of its parent.  A comment whose parent is not present is
dropped (the defensive-orphan policy of §4.2 step 3; the referential
integrity of the store makes the case unreachable). -/
def assembleStep (f : CommentForest) (r : CommentRow) : CommentForest :=
  match r.parentId with
  | none => f.append (.cons (.mk r .nil) .nil)
  | some p =>
    match attachForest p (.mk r .nil) f with
    | some f2 => f2
    | none => f

/-- Modelled from the spec: the Tree Assembler (§4.2), missing from the
checked-in backend sources.  Folds the flat comment list for one message,
in insertion order, into the nested forest. -/
def assemble (rows : List CommentRow) : CommentForest :=
  rows.foldl assembleStep .nil

/-- Modelled from the spec: the total count produced by the Tree
Assembler (§4.2 step 4) is the length of the full flat input list. -/
def totalCount (rows : List CommentRow) : Nat :=
  rows.length

/-- Error taxonomy of the spec (§7): content validation, missing caller,
unresolved reference. -/
inductive ApiError : Type where
  | validationError : ApiError
  | unauthorized : ApiError
  | notFound : ApiError
  deriving DecidableEq, Repr

/-- Trimmed length of a content string: length after dropping leading
and trailing whitespace (the "(trimmed length)" of spec §4.3). -/
def trimmedLength (s : String) : Nat :=
  ((s.data.dropWhile Char.isWhitespace).reverse.dropWhile Char.isWhitespace).length

/-- Modelled from the spec: the [3, 200] content bound of §3/§4.1/§4.3,
taken on the trimmed length as §4.3 specifies; the enforcing backend code
is missing from the checked-in sources. -/
def validContent (s : String) : Bool :=
  decide (3 ≤ trimmedLength s) && decide (trimmedLength s ≤ 200)

/-- Validity of an optional content value: missing content is invalid
(spec §4.3 "content is missing"). -/
def contentValid : Option String → Bool
  | none => false
  | some s => validContent s

/-- Modelled from the spec: the Comment Store state (§4.1) — the set of
existing message ids, the flat comment rows in insertion order, and a
fresh-id counter; the backing MySQL store is not in the checked-in
sources. -/
structure Store where
  messages : List Nat
  comments : List CommentRow
  nextId : Nat
  deriving DecidableEq, Repr

/-- Modelled from the spec: the referential check of the store for an optional
parent reference (§4.1): a provided `parentId` must reference an existing
comment under the same message. -/
def parentOk (st : Store) (messageId : Nat) : Option Nat → Bool
  | none => true
  | some p => st.comments.any (fun r => r.id = p && r.messageId = messageId)

/-- Modelled from the spec: `Store.insert` (§4.1), missing from the
checked-in backend sources.  Fails with `NotFound` if the message does
not exist or the parent reference does not resolve under the same
message; fails with `ValidationError` if the content is outside the
[3, 200] bound; otherwise appends exactly one row and mutates nothing
else. -/
def Store.insert (st : Store) (messageId : Nat) (parentId : Option Nat)
    (author : Author) (content : String) : Store × Except ApiError CommentRow :=
  if messageId ∈ st.messages then
    if parentOk st messageId parentId then
      if validContent content then
        let row : CommentRow :=
          ⟨st.nextId, messageId, parentId, author, content, st.nextId⟩
        ({ st with comments := st.comments ++ [row], nextId := st.nextId + 1 },
          .ok row)
      else (st, .error .validationError)
    else (st, .error .notFound)
  else (st, .error .notFound)

/-- Modelled from the spec: `listByMessage` (§4.1), missing from the
checked-in backend sources — all comments for the message in insertion
order; empty (not an error) when the message has no comments. -/
def listByMessage (st : Store) (messageId : Nat) : List CommentRow :=
  st.comments.filter (fun r => r.messageId = messageId)

/-- Modelled from the spec: the Comment Service `createComment` (§4.3),
missing from the checked-in backend sources.  Fails with `Unauthorized`
if `currentUser` is absent; fails with `ValidationError` if the content
is missing or its trimmed length is outside [3, 200]; otherwise delegates
reference validation and the insert to the Store. -/
def createComment (currentUser : Option Author) (st : Store) (messageId : Nat)
    (content : Option String) (parentId : Option Nat) :
    Store × Except ApiError CommentRow :=
  match currentUser with
  | none => (st, .error .unauthorized)
  | some u =>
    match content with
    | none => (st, .error .validationError)
    | some s =>
      if validContent s then st.insert messageId parentId u s
      else (st, .error .validationError)

/-- Modelled from the spec: the Message Read Path (§4.4), missing from
the checked-in backend sources — `NotFound` if the message does not
exist, otherwise the assembled forest and the flat count. -/
def getMessageWithComments (st : Store) (messageId : Nat) :
    Except ApiError (CommentForest × Nat) :=
  if messageId ∈ st.messages then
    let rows := listByMessage st messageId
    .ok (assemble rows, totalCount rows)
  else .error .notFound

/-!
Frontend embeddings, from the TypeScript sources under
`frontend/src`.
-/

/-- A single-message payload as received by the client from
`messagesApi.getById`: the assembled forest (possibly absent in the
JSON, handled by `|| []` in `MessageCard.tsx`) and the flat count. -/
structure FetchedMessage where
  comments : Option CommentForest
  comment_count : Nat

/-- `handleCommentAdded` of `MessageCard.tsx` (lines 67–84), as a pure
function of the outcome of the post-creation re-fetch: on a successful
re-fetch (`some`) the state becomes the server forest (`comments || []`)
and count; if the re-fetch fails (`none`) the code falls back to
prepending the single new comment and incrementing the displayed count. -/
def handleCommentAdded (fetched : Option FetchedMessage) (newComment : CommentNode)
    (prevComments : CommentForest) (prevCount : Nat) : CommentForest × Nat :=
  match fetched with
  | some m => (m.comments.getD .nil, m.comment_count)
  | none => (.cons newComment prevComments, prevCount + 1)

/-- The reading of `handleCommentAdded` asserted by the claim: the displayed state is
obtained from the re-fetched message (server as source of truth). -/
def serverDerived (fetched : Option FetchedMessage) (result : CommentForest × Nat) : Prop :=
  ∃ m, fetched = some m ∧ result = (m.comments.getD .nil, m.comment_count)

/-- The reading of the displayed count asserted by the claim: it comes from the
`comment_count` of the re-fetched message (derived by counting rows), never
from incrementing a previously displayed count. -/
def countFromServer (fetched : Option FetchedMessage) (result : CommentForest × Nat) : Prop :=
  ∃ m, fetched = some m ∧ result.2 = m.comment_count

/-- Body of a create-comment request as built at the `commentsApi.create`
call sites in `CommentSection.tsx` (string ids, as in the components). -/
structure CreateCommentBody where
  message_id : Option String
  content : String
  parent_id : Option String
  deriving DecidableEq, Repr

/-- The body built by `CommentSection.handleSubmit`
(`CommentSection.tsx` lines 217–220): message id and content, no
parent. -/
def commentSectionTopLevelBody (messageId content : String) : CreateCommentBody :=
  { message_id := some messageId, content := content, parent_id := none }

/-- The body built by `CommentItem.handleReply` (`CommentSection.tsx`
lines 69–73): message id, content, and the id of the parent comment. -/
def commentItemReplyBody (messageId content parentCommentId : String) : CreateCommentBody :=
  { message_id := some messageId, content := content, parent_id := some parentCommentId }

/-- Body of `commentsAPI.createComment` in `utils/api.ts` (lines
152–158): only `content` and an optional numeric `parent_id` — the
helper has no `message_id` field at all. -/
structure UtilsCreateCommentBody where
  content : String
  parent_id : Option Nat
  deriving DecidableEq, Repr

/-- Field presence of a create-comment request body, for comparing the
two client body shapes against the documented `\x7b message_id, content,
parent_id? \x7d` contract. -/
structure FieldPresence where
  has_message_id : Bool
  has_content : Bool
  has_parent_id : Bool
  deriving DecidableEq, Repr

/-- Which fields a `CommentSection` body carries. -/
def presenceOf (b : CreateCommentBody) : FieldPresence :=
  ⟨b.message_id.isSome, true, b.parent_id.isSome⟩

/-- Which fields a `utils/api.ts` `createComment` body carries: `content`
is a required field, `message_id` does not exist in the shape. -/
def presenceOfUtils (b : UtilsCreateCommentBody) : FieldPresence :=
  ⟨false, true, b.parent_id.isSome⟩

/-- The documented request shape (spec §6): `message_id` and `content`
always present, `parent_id` present exactly for replies. -/
def documentedShape (p : FieldPresence) (isReply : Bool) : Prop :=
  p.has_message_id = true ∧ p.has_content = true ∧ p.has_parent_id = isReply

/-- `CommentItem.handleReply` (`CommentSection.tsx` lines 64–73) as a
pure function of the current user: with no user it returns before
issuing any request (line 65), otherwise it sends the reply body. -/
def handleReplyRequest (user : Option Author) (messageId content parentCommentId : String) :
    Option CreateCommentBody :=
  match user with
  | none => none
  | some _ => some (commentItemReplyBody messageId content parentCommentId)

/-- `CommentSection.handleSubmit` (`CommentSection.tsx` lines 212–220)
as a pure function of the current user: with no user it returns before
issuing any request (line 213), otherwise it sends the top-level body. -/
def handleSubmitRequest (user : Option Author) (messageId content : String) :
    Option CreateCommentBody :=
  match user with
  | none => none
  | some _ => some (commentSectionTopLevelBody messageId content)

/-- Outcome of the axios response-error interceptor in `utils/api.ts`
(lines 28–53): retry the original request once with a bearer token,
clear both tokens and navigate to a location, or pass the error
through unchanged. -/
inductive InterceptorAction : Type where
  | retryWith (token : String) : InterceptorAction
  | clearAndRedirect (target : String) : InterceptorAction
  | reject : InterceptorAction
  deriving DecidableEq, Repr

/-- The response-error interceptor of `utils/api.ts` (lines 28–53) as a
pure function of the response status, the stored refresh token, and the
outcome of `refreshAccessToken` (`some newToken` on success, `none` on
failure). -/
def onResponseError (status : Nat) (refreshToken : Option String)
    (refreshOutcome : Option String) : InterceptorAction :=
  if status = 401 then
    match refreshToken with
    | some _ =>
      match refreshOutcome with
      | some newTok => .retryWith newTok
      | none => .clearAndRedirect "/auth/login"
    | none => .clearAndRedirect "/auth/login"
  else .reject

/-- `marginLeft` of `CommentItem` (`CommentSection.tsx` line 102):
`Math.min(level * 20, 100)` pixels of left indentation. -/
def marginLeft (level : Nat) : Nat :=
  min (level * 20) 100

/-- The eight wish icons of `getWishIcon` (`MessageCard.tsx` line 32). -/
def icons : List String :=
  ["🌟", "✨", "💫", "⭐", "🌠", "💝", "🎋", "🌙"]

/-- Sum of the character codes of a string, the `hash` of `getWishIcon`
(`MessageCard.tsx` line 33). -/
def charSum (s : String) : Nat :=
  s.data.foldl (fun acc c => acc + c.toNat) 0

/-- `getWishIcon` of `MessageCard.tsx` (lines 30–35): index the fixed
icon list by the character-code sum modulo the list length. -/
def getWishIcon (messageId : String) : String :=
  icons.getD (charSum messageId % icons.length) ""

/-!
Concrete data used by the examples and counterexamples.
-/

/-- Example author for the concrete scenarios. -/
def exAuthor : Author := ⟨100, "alice", none⟩

/-- Comment A of the §8 ordering scenario: top-level. -/
def exRowA : CommentRow := ⟨1, 10, none, exAuthor, "blessing A", 0⟩

/-- Comment B of the §8 ordering scenario: reply to A. -/
def exRowB : CommentRow := ⟨2, 10, some 1, exAuthor, "blessing B", 1⟩

/-- Comment C of the §8 ordering scenario: top-level. -/
def exRowC : CommentRow := ⟨3, 10, none, exAuthor, "blessing C", 2⟩

/-- Comment D of the §8 ordering scenario: reply to B. -/
def exRowD : CommentRow := ⟨4, 10, some 2, exAuthor, "blessing D", 3⟩

/-!
Theorems.
-/

/-- Helper: when the content passes the length bound, `Store.insert`
never fails with `ValidationError` (its only remaining failures are the
`NotFound` reference checks). -/
theorem insert_no_validationError (st : Store) (mid : Nat) (pid : Option Nat)
    (u : Author) (s : String) (hv : validContent s = true) :
    (st.insert mid pid u s).2 ≠ .error .validationError := by
  unfold Store.insert
  repeat' split
  all_goals simp_all

/-- C1: the Tree Assembler, run over the flat comment list in insertion
order, appends each null-parent comment as a new root in insertion
order, appends every other comment at the end of the children list of
its parent (preserving sibling insertion order), and on the concrete
insertion order A (top-level), B (reply to A), C (top-level), D (reply
to B) produces exactly the forest [A[B[D]], C]. -/
theorem c1_tree_assembler_order :
    (∀ (rows : List CommentRow) (r : CommentRow), r.parentId = none →
      assemble (rows ++ [r]) = (assemble rows).append (.cons (.mk r .nil) .nil)) ∧
    (∀ (row : CommentRow) (ch : CommentForest) (c : CommentNode),
      attachNode row.id c (.mk row ch) = some (.mk row (ch.append (.cons c .nil)))) ∧
    assemble [exRowA, exRowB, exRowC, exRowD] =
      .cons (.mk exRowA (.cons (.mk exRowB (.cons (.mk exRowD .nil) .nil)) .nil))
        (.cons (.mk exRowC .nil) .nil) := by
  refine ⟨?_, ?_, rfl⟩
  · intro rows r h
    simp [assemble, List.foldl_append, assembleStep, h]
  · intro row ch c
    simp [attachNode]

/-- Witness for C1: appending the top-level comment C after A extends
the root forest on the right. -/
theorem c1_tree_assembler_order_witness :
    assemble ([exRowA] ++ [exRowC]) =
      (assemble [exRowA]).append (.cons (.mk exRowC .nil) .nil) :=
  c1_tree_assembler_order.1 [exRowA] exRowC rfl

/-- C2: with an authenticated caller, `createComment` fails with
`ValidationError` exactly when the content is missing or its trimmed
length is outside [3, 200]; on such content the store is unchanged (no
row inserted), and content within the bound is never rejected by the
length check. -/
theorem c2_content_validation (st : Store) (u : Author) (mid : Nat)
    (content : Option String) (pid : Option Nat) :
    ((createComment (some u) st mid content pid).2 = .error .validationError ↔
      contentValid content = false) ∧
    (contentValid content = false →
      (createComment (some u) st mid content pid).1 = st) := by
  cases content with
  | none => simp [createComment, contentValid]
  | some s =>
    by_cases hv : validContent s = true
    · have h2 := insert_no_validationError st mid pid u s hv
      simp [createComment, hv, contentValid, h2]
    · have hv2 : validContent s = false := by
        simpa using hv
      simp [createComment, hv2, contentValid]

/-- Witness for C2: content of trimmed length 2 is rejected and the
store is left unchanged. -/
theorem c2_content_validation_witness :
    (createComment (some ⟨1, "alice", none⟩) ⟨[10], [], 0⟩ 10 (some "ab") none).1 =
      ⟨[10], [], 0⟩ :=
  (c2_content_validation ⟨[10], [], 0⟩ ⟨1, "alice", none⟩ 10 (some "ab") none).2
    (by decide)

/-- Counterexample to C3: when the post-creation re-fetch fails,
`handleCommentAdded` produces the displayed state by a local,
optimistic single-node prepend (with count incremented), not from a
re-fetched message — so the nested structure is not always obtained by
re-fetching and re-assembling. -/
theorem c3_counterexample :
    handleCommentAdded none (.mk exRowB .nil) (.cons (.mk exRowA .nil) .nil) 1 =
      (.cons (.mk exRowB .nil) (.cons (.mk exRowA .nil) .nil), 2) ∧
    ¬ serverDerived none
      (handleCommentAdded none (.mk exRowB .nil) (.cons (.mk exRowA .nil) .nil) 1) := by
  refine ⟨rfl, ?_⟩
  rintro ⟨m, hm, -⟩
  exact Option.noConfusion hm

/-- C3 (amended): after a successful creation the client re-fetches the
message and displays the server forest and count; only when that
re-fetch fails does it fall back to prepending the single new comment
and incrementing the displayed count. -/
theorem c3_refetch_amended :
    (∀ (m : FetchedMessage) (c : CommentNode) (prev : CommentForest) (n : Nat),
      handleCommentAdded (some m) c prev n = (m.comments.getD .nil, m.comment_count)) ∧
    (∀ (c : CommentNode) (prev : CommentForest) (n : Nat),
      handleCommentAdded none c prev n = (.cons c prev, n + 1)) :=
  ⟨fun _ _ _ _ => rfl, fun _ _ _ => rfl⟩

/-- Counterexample to C4: the body built by `commentsAPI.createComment`
in `utils/api.ts` has no `message_id` field, so not every create-comment
request carries the documented shape. -/
theorem c4_counterexample :
    ¬ documentedShape (presenceOfUtils ⟨"nice wish", none⟩) false := by
  intro h
  simp [documentedShape, presenceOfUtils] at h

/-- C4 (amended): the requests issued from `CommentSection.tsx` carry
`message_id` and `content` with `parent_id` present exactly for replies,
while the `commentsAPI.createComment` helper in `utils/api.ts` sends a
body with `content` and optional `parent_id` but no `message_id`. -/
theorem c4_body_shape_amended :
    (∀ m c, documentedShape (presenceOf (commentSectionTopLevelBody m c)) false) ∧
    (∀ m c p, documentedShape (presenceOf (commentItemReplyBody m c p)) true) ∧
    (∀ c (p : Option Nat),
      (presenceOfUtils ⟨c, p⟩).has_message_id = false ∧
      (presenceOfUtils ⟨c, p⟩).has_content = true ∧
      (presenceOfUtils ⟨c, p⟩).has_parent_id = p.isSome) :=
  ⟨fun _ _ => ⟨rfl, rfl, rfl⟩, fun _ _ _ => ⟨rfl, rfl, rfl⟩, fun _ _ => ⟨rfl, rfl, rfl⟩⟩

/-- C5: with no current user, `createComment` fails with `Unauthorized`
and leaves every store untouched (the result does not depend on the
store at all), and neither frontend handler issues a create request. -/
theorem c5_unauthorized_guard :
    (∀ (st : Store) (mid : Nat) (content : Option String) (pid : Option Nat),
      createComment none st mid content pid = (st, .error .unauthorized)) ∧
    (∀ m c p, handleReplyRequest none m c p = none) ∧
    (∀ m c, handleSubmitRequest none m c = none) :=
  ⟨fun _ _ _ _ => rfl, fun _ _ _ => rfl, fun _ _ => rfl⟩

/-- Counterexample to C6: when the post-creation re-fetch fails, the
displayed `comment_count` is produced by incrementing the previously
displayed count, not by counting fetched rows. -/
theorem c6_counterexample :
    (handleCommentAdded none (.mk exRowC .nil) .nil 5).2 = 5 + 1 ∧
    ¬ countFromServer none (handleCommentAdded none (.mk exRowC .nil) .nil 5) := by
  refine ⟨rfl, ?_⟩
  rintro ⟨m, hm, -⟩
  exact Option.noConfusion hm

/-- C6 (amended): the server read path always derives `comment_count` by
counting the rows fetched for the message, and the client displays the
fetched count after a successful re-fetch; only in the re-fetch-failure
fallback does the client increment the previously displayed count. -/
theorem c6_count_amended (st : Store) (mid : Nat) (h : mid ∈ st.messages) :
    getMessageWithComments st mid =
      .ok (assemble (listByMessage st mid), (listByMessage st mid).length) ∧
    (∀ (m : FetchedMessage) (c : CommentNode) (prev : CommentForest) (n : Nat),
      (handleCommentAdded (some m) c prev n).2 = m.comment_count) ∧
    (∀ (c : CommentNode) (prev : CommentForest) (n : Nat),
      (handleCommentAdded none c prev n).2 = n + 1) := by
  refine ⟨?_, fun _ _ _ _ => rfl, fun _ _ _ => rfl⟩
  simp [getMessageWithComments, totalCount, h]

/-- Witness for C6 (amended), at a store holding one message and no
comments. -/
theorem c6_count_amended_witness :
    getMessageWithComments ⟨[10], [], 0⟩ 10 =
      .ok (assemble (listByMessage ⟨[10], [], 0⟩ 10),
        (listByMessage ⟨[10], [], 0⟩ 10).length) ∧
    (∀ (m : FetchedMessage) (c : CommentNode) (prev : CommentForest) (n : Nat),
      (handleCommentAdded (some m) c prev n).2 = m.comment_count) ∧
    (∀ (c : CommentNode) (prev : CommentForest) (n : Nat),
      (handleCommentAdded none c prev n).2 = n + 1) :=
  c6_count_amended ⟨[10], [], 0⟩ 10 (by decide)

/-- C7: fetching an existing message that has no comment rows succeeds
and returns the empty forest and a count of zero. -/
theorem c7_zero_comments (st : Store) (mid : Nat) (h1 : mid ∈ st.messages)
    (h2 : listByMessage st mid = []) :
    getMessageWithComments st mid = .ok (.nil, 0) := by
  simp [getMessageWithComments, h1, h2, totalCount, assemble]

/-- Witness for C7, at a store holding message 11 and no comments. -/
theorem c7_zero_comments_witness :
    getMessageWithComments ⟨[11], [], 0⟩ 11 = .ok (.nil, 0) :=
  c7_zero_comments ⟨[11], [], 0⟩ 11 (by decide) rfl

/-- C8: on a 401 response the interceptor retries the original request
once with the freshly refreshed bearer token when a refresh token exists
and the refresh succeeds; with no refresh token, or a failing refresh,
it clears the tokens and redirects to the login page; every non-401
response error is passed through unchanged. -/
theorem c8_refresh_interceptor :
    (∀ (r t : String), onResponseError 401 (some r) (some t) = .retryWith t) ∧
    (∀ (r : String), onResponseError 401 (some r) none = .clearAndRedirect "/auth/login") ∧
    (∀ (out : Option String), onResponseError 401 none out = .clearAndRedirect "/auth/login") ∧
    (∀ (s : Nat) (rt out : Option String), s ≠ 401 → onResponseError s rt out = .reject) := by
  refine ⟨fun r t => rfl, fun r => rfl, fun out => rfl, fun s rt out h => ?_⟩
  simp [onResponseError, h]

/-- Witness for C8: a 500 response error is passed through. -/
theorem c8_refresh_interceptor_witness :
    onResponseError 500 none none = .reject :=
  c8_refresh_interceptor.2.2.2 500 none none (by decide)

/-- C9: the left indentation of a rendered comment at nesting level l is
min(20·l, 100) pixels, monotonically nondecreasing in the level, and
bounded by 100 pixels at every level. -/
theorem c9_indentation :
    (∀ l, marginLeft l = min (20 * l) 100) ∧
    (∀ a b, a ≤ b → marginLeft a ≤ marginLeft b) ∧
    (∀ l, marginLeft l ≤ 100) := by
  refine ⟨fun l => by rw [marginLeft, Nat.mul_comm], fun a b h => ?_,
    fun l => min_le_right _ _⟩
  exact min_le_min (Nat.mul_le_mul_right 20 h) le_rfl

/-- Witness for C9: level 2 is indented no more than level 9. -/
theorem c9_indentation_witness : marginLeft 2 ≤ marginLeft 9 :=
  c9_indentation.2.1 2 9 (by decide)

/-- C10: `getWishIcon` is a total deterministic function of the message
id: it always returns one of the eight fixed icons, the icon is the list
entry at index (sum of character codes mod 8), and equal ids always get
equal icons. -/
theorem c10_wish_icon :
    (∀ id, getWishIcon id ∈ icons) ∧
    (∀ id, getWishIcon id = icons.getD (charSum id % 8) "") ∧
    (∀ id1 id2, id1 = id2 → getWishIcon id1 = getWishIcon id2) := by
  refine ⟨fun id => ?_, fun id => rfl, fun id1 id2 h => h ▸ rfl⟩
  have h8 : charSum id % icons.length < 8 := Nat.mod_lt _ (by decide)
  unfold getWishIcon
  generalize charSum id % icons.length = n at h8 ⊢
  interval_cases n <;> decide

/-- Witness for C10: equal ids yield the same icon. -/
theorem c10_wish_icon_witness : getWishIcon "wish-1" = getWishIcon "wish-1" :=
  c10_wish_icon.2.2 "wish-1" "wish-1" rfl
